import Mathlib

/-!
Shallow embedding of the user identity and online-presence subsystem of the
civic-engagement backend (`UserService`): credential-uniqueness checking,
account creation and update, IP-based constituency resolution, and socket
connection tracking.  Persistent MongoDB documents are modelled as Lean
structures; a collection is a `List` of documents scanned in natural order.
A JavaScript `undefined` query value is serialized by the default driver as
BSON `null`, which matches documents where the field is `null` or missing;
both are modelled as `none`.
-/

namespace Samples

/-- Client platform tag carried by connection events. -/
inductive Platform
  | app
  | web
  | webmobile
deriving DecidableEq, Repr

/-- One entry of a user's `activeSockets` array. -/
structure SocketEntry where
  socketid : String
  platform : Platform
  date : Nat
deriving DecidableEq, Repr

/-- Per-platform connection counters (`platformOnline` subdocument). -/
structure PlatformOnline where
  app : Nat := 0
  web : Nat := 0
  webmobile : Nat := 0
deriving DecidableEq, Repr

/-- Read the counter of one platform. -/
def PlatformOnline.get (p : PlatformOnline) : Platform → Nat
  | .app => p.app
  | .web => p.web
  | .webmobile => p.webmobile

/-- The `$inc` of `platformOnline.<platform>` by 1. -/
def PlatformOnline.inc (p : PlatformOnline) : Platform → PlatformOnline
  | .app => { p with app := p.app + 1 }
  | .web => { p with web := p.web + 1 }
  | .webmobile => { p with webmobile := p.webmobile + 1 }

/-- The `location` subdocument of a user: raw ObjectId references into the
civic hierarchy (ids modelled as `Nat`). -/
structure UserLocation where
  state : Option Nat := none
  district : Option Nat := none
  assemblyConstituency : Option Nat := none
  parliamentaryConstituency : Option Nat := none
deriving DecidableEq, Repr

/-- A stored `User` document.  `none` stands for a missing or `null` field. -/
structure UserDoc where
  id : Nat := 0
  firebaseId : Option String := none
  phone : Option String := none
  email : Option String := none
  voterId : Option String := none
  emailVerified : Option Bool := none
  phoneVerified : Option Bool := none
  location : Option UserLocation := none
  activeSockets : List SocketEntry := []
  platformOnline : PlatformOnline := {}
  ipGeo : Option String := none
  lastIp : Option String := none
  dateOfBirth : Option String := none
  gender : Option String := none
deriving DecidableEq, Repr

/-- A stored `UserSession` document.  `state` is `none` when the field was
`undefined` at creation time and therefore absent from the document. -/
structure SessionDoc where
  user : String
  socketid : String
  platform : Platform
  date : Nat
  state : Option Nat
deriving DecidableEq, Repr

/-- The persistent store: `User` and `UserSession` collections in natural
(insertion) order. -/
structure DB where
  users : List UserDoc := []
  sessions : List SessionDoc := []
deriving DecidableEq, Repr

/-- JavaScript truthiness of an optional string: absent and `""` are falsy. -/
def truthy : Option String → Bool
  | none => false
  | some s => s ≠ ""

/-- `updateOne`-style modification: apply `f` to the first element satisfying
`p`, leaving the rest of the list unchanged. -/
def updateFirst (l : List α) (p : α → Bool) (f : α → α) : List α :=
  match l with
  | [] => []
  | x :: xs => if p x then f x :: xs else x :: updateFirst xs p f

/-- The `check-credentials` request body (`CheckCredentialsDto`): the
candidate identity fields.  `selfId` embeds the dto's `_id` field. -/
structure CheckCredentialsDto where
  phone : Option String := none
  email : Option String := none
  voterId : Option String := none
  firebaseId : Option String := none
  selfId : Option Nat := none
deriving DecidableEq, Repr

/-- One `$or` branch of `checkCredentials`: the document field equals the
candidate value and is neither the empty string nor `null`/missing
(`❴field: q❵ ∧ ❴field: ❴$ne: ''❵❵ ∧ ❴field: ❴$ne: null❵❵`, with an absent
candidate value serialized as `null`). -/
def credBranch (q stored : Option String) : Bool :=
  stored == q && stored != some "" && stored != none

/-- The `$and` clause `❴firebaseId: ❴$ne: credentials.firebaseId❵❵`, pushed
only when `credentials.firebaseId` is truthy. -/
def fbExclusion (c : CheckCredentialsDto) (u : UserDoc) : Bool :=
  if truthy c.firebaseId then u.firebaseId != c.firebaseId else true

/-- The `$and` clause `❴_id: ❴$ne: credentials._id❵❵`, pushed only when
`credentials._id` is present (an ObjectId is always truthy). -/
def idExclusion (c : CheckCredentialsDto) (u : UserDoc) : Bool :=
  match c.selfId with
  | some i => u.id != i
  | none => true

/-- `UserService.checkCredentials`: whether some stored user satisfies the
constructed `$and`/`$or` filter.  The `voterId` branch is appended to the
`$or` only when the candidate `voterId` is truthy. -/
def checkCredentials (users : List UserDoc) (c : CheckCredentialsDto) : Bool :=
  users.any fun u =>
    fbExclusion c u && idExclusion c u &&
      (credBranch c.phone u.phone || credBranch c.email u.email ||
        (truthy c.voterId && credBranch c.voterId u.voterId))

/-- Spec-side notion of a matching non-empty credential: the candidate
supplies a non-empty value and the stored field holds exactly that value. -/
def nonEmptyMatch (q stored : Option String) : Prop :=
  ∃ v, q = some v ∧ v ≠ "" ∧ stored = some v

/-- Spec-side collision predicate, written from the claim: some existing
user — other than the one identified by the candidate's `selfId` or
`firebaseId` when provided — has a matching non-empty phone, a matching
non-empty email, or, when the candidate supplies a (non-empty) `voterId`,
a matching non-empty `voterId`. -/
def specCollision (users : List UserDoc) (c : CheckCredentialsDto) : Prop :=
  ∃ u ∈ users,
    (∀ v, c.firebaseId = some v → v ≠ "" → u.firebaseId ≠ some v) ∧
    (∀ i, c.selfId = some i → u.id ≠ i) ∧
    (nonEmptyMatch c.phone u.phone ∨ nonEmptyMatch c.email u.email ∨
      ((∃ v, c.voterId = some v ∧ v ≠ "") ∧ nonEmptyMatch c.voterId u.voterId))

/-- A candidate value is "not set" when it is absent or the empty string. -/
def notSet : Option String → Bool
  | none => true
  | some s => s == ""

lemma credBranch_iff (q stored : Option String) :
    credBranch q stored = true ↔ nonEmptyMatch q stored := by
  unfold credBranch nonEmptyMatch
  cases q with
  | none =>
    simp only [Bool.and_eq_true, beq_iff_eq, bne_iff_ne, ne_eq]
    constructor
    · rintro ⟨⟨h, _⟩, hn⟩; exact absurd h hn
    · rintro ⟨v, hv, _⟩; exact absurd hv (by simp)
  | some a =>
    cases stored with
    | none => simp
    | some b =>
      simp only [Bool.and_eq_true, beq_iff_eq, bne_iff_ne, ne_eq, Option.some.injEq]
      constructor
      · rintro ⟨⟨rfl, hne⟩, -⟩
        exact ⟨b, rfl, fun h => hne (by simp [h]), rfl⟩
      · rintro ⟨v, hv, hvne, rfl⟩
        cases hv
        exact ⟨⟨rfl, fun h => hvne (by simpa using h)⟩, by simp⟩

lemma fbExclusion_iff (c : CheckCredentialsDto) (u : UserDoc) :
    fbExclusion c u = true ↔
      ∀ v, c.firebaseId = some v → v ≠ "" → u.firebaseId ≠ some v := by
  unfold fbExclusion truthy
  cases c.firebaseId with
  | none => simp
  | some a =>
    by_cases ha : a = ""
    · subst ha; simp
    · simp [ha]

lemma idExclusion_iff (c : CheckCredentialsDto) (u : UserDoc) :
    idExclusion c u = true ↔ ∀ i, c.selfId = some i → u.id ≠ i := by
  unfold idExclusion
  cases c.selfId with
  | none => simp
  | some i => simp

lemma voterGuard_iff (c : CheckCredentialsDto) :
    truthy c.voterId = true ↔ ∃ v, c.voterId = some v ∧ v ≠ "" := by
  unfold truthy
  cases c.voterId with
  | none => simp
  | some a => simp [decide_eq_true_iff]

/-- External identity-provider account record, as returned by
`auth().getUser`. -/
structure ProviderUser where
  emailVerified : Bool := false
  phoneNumber : Option String := none
  email : Option String := none
deriving DecidableEq, Repr

/-- State of the external identity provider: its accounts and an
availability flag; `available = false` makes every call throw. -/
structure FirebaseState where
  available : Bool := true
  accounts : List (String × ProviderUser) := []
deriving DecidableEq, Repr

/-- `auth().getUser(uid)`: `none` models a thrown error (provider
unavailable, `uid` undefined, or no such account). -/
def getUserP (fb : FirebaseState) (uid : Option String) : Option ProviderUser :=
  match uid with
  | none => none
  | some v =>
    if fb.available then (fb.accounts.find? (fun a => a.1 == v)).map (fun a => a.2)
    else none

/-- The request body of `create` (a `Partial<UserDocument>`). -/
structure CreateDto where
  id : Nat := 0
  firebaseId : Option String := none
  phone : Option String := none
  email : Option String := none
  voterId : Option String := none
  emailVerified : Option Bool := none
  phoneVerified : Option Bool := none
  location : Option UserLocation := none
  activeSockets : List SocketEntry := []
  dateOfBirth : Option String := none
  gender : Option String := none
deriving DecidableEq, Repr

/-- `create` passes `data` structurally to `checkCredentials`; the dto's
`_id` is not set by the caller. -/
def toCheck (d : CreateDto) : CheckCredentialsDto :=
  { phone := d.phone, email := d.email, voterId := d.voterId,
    firebaseId := d.firebaseId, selfId := none }

/-- The `userModel.exists(❴firebaseId: data.firebaseId❵)` guard. -/
def existsFirebaseId (users : List UserDoc) (fid : Option String) : Bool :=
  users.any fun u => u.firebaseId == fid

/-- Duplicate errors raised by `create` (both `BadRequestException`s in the
source, distinguished by their message). -/
inductive CreateError
  | duplicateIdentity
  | duplicateCredential
deriving DecidableEq, Repr

/-- The document inserted by `userModel.create(data)` after the source has
overwritten `data.activeSockets` with the empty array. -/
def toUserDoc (d : CreateDto) : UserDoc :=
  { id := d.id, firebaseId := d.firebaseId, phone := d.phone, email := d.email,
    voterId := d.voterId, emailVerified := d.emailVerified,
    phoneVerified := d.phoneVerified, location := d.location,
    activeSockets := [], dateOfBirth := d.dateOfBirth, gender := d.gender }

/-- The post-insert enrichment block of `create`: it mutates only the local
`data` object after `userModel.create` has already run, so its result is
neither stored nor returned; it is embedded to mirror the source. -/
def createEnrich (fb : FirebaseState) (d : CreateDto) : CreateDto :=
  match getUserP fb d.firebaseId with
  | none => d
  | some pu =>
    let d1 :=
      if truthy d.email && pu.emailVerified then { d with emailVerified := some true }
      else d
    if truthy d1.phone && (pu.phoneNumber == d1.phone) then
      { d1 with phoneVerified := some true }
    else d1

/-- `UserService.create`: reject a duplicate `firebaseId`, then a credential
collision, then insert the record (with empty `activeSockets`) and run the
best-effort provider enrichment. -/
def create (db : DB) (fb : FirebaseState) (data : CreateDto) :
    DB × Except CreateError UserDoc :=
  if existsFirebaseId db.users data.firebaseId then
    (db, Except.error CreateError.duplicateIdentity)
  else if checkCredentials db.users (toCheck data) then
    (db, Except.error CreateError.duplicateCredential)
  else
    let user := toUserDoc data
    let _enriched := createEnrich fb data
    ({ db with users := db.users ++ [user] }, Except.ok user)

/-- The filter passed to `update`/`findOneAndUpdate` (the service is called
with plain equality filters on `firebaseId` and/or `_id`). -/
structure UpdateQueryDto where
  firebaseId : Option String := none
  id : Option Nat := none
deriving DecidableEq, Repr

/-- Whether a stored user satisfies every field of the filter. -/
def matchesQuery (q : UpdateQueryDto) (u : UserDoc) : Bool :=
  (match q.firebaseId with
   | some v => u.firebaseId == some v
   | none => true) &&
  (match q.id with
   | some i => u.id == i
   | none => true)

/-- The patch passed to `update` (top-level fields act as a `$set`). -/
structure UpdateDto where
  phone : Option String := none
  email : Option String := none
  voterId : Option String := none
  emailVerified : Option Bool := none
  phoneVerified : Option Bool := none
  location : Option UserLocation := none
  dateOfBirth : Option String := none
  gender : Option String := none
deriving DecidableEq, Repr

/-- `$set` semantics for one field: a value present in the patch overwrites
the stored one, an absent one leaves it unchanged. -/
def setField (new old : Option α) : Option α :=
  match new with
  | some v => some v
  | none => old

/-- The `try`-block of `update`: when the provider call succeeds, set
`emailVerified` when the patch has a truthy email and the provider account
reports `emailVerified`, and set `phoneVerified` when the patch has a
truthy phone equal to the provider's `phoneNumber`. -/
def enrichUpdate (pu : Option ProviderUser) (d : UpdateDto) : UpdateDto :=
  match pu with
  | none => d
  | some u =>
    let d1 :=
      if truthy d.email && u.emailVerified then { d with emailVerified := some true }
      else d
    if truthy d1.phone && (u.phoneNumber == d1.phone) then
      { d1 with phoneVerified := some true }
    else d1

/-- Apply a patch to a stored document. -/
def applyUpdate (d : UpdateDto) (u : UserDoc) : UserDoc :=
  { u with
    phone := setField d.phone u.phone,
    email := setField d.email u.email,
    voterId := setField d.voterId u.voterId,
    emailVerified := setField d.emailVerified u.emailVerified,
    phoneVerified := setField d.phoneVerified u.phoneVerified,
    location := setField d.location u.location,
    dateOfBirth := setField d.dateOfBirth u.dateOfBirth,
    gender := setField d.gender u.gender }

/-- The `orFail(ForbiddenException)` outcome of `update`. -/
inductive UpdateError
  | notFound
deriving DecidableEq, Repr

/-- `UserService.update`: enrich the patch from the provider record of
`query.firebaseId` (errors swallowed), then `findOneAndUpdate` the first
matching document, failing when none matches.  The pre-update document is
returned, as `findOneAndUpdate` does without `new: true`. -/
def update (db : DB) (fb : FirebaseState) (q : UpdateQueryDto) (d : UpdateDto) :
    DB × Except UpdateError UserDoc :=
  let d' := enrichUpdate (getUserP fb q.firebaseId) d
  match db.users.find? (matchesQuery q) with
  | none => (db, Except.error UpdateError.notFound)
  | some u =>
    ({ db with users := updateFirst db.users (matchesQuery q) (applyUpdate d') },
      Except.ok u)

/-- Response of the external geo-IP provider for one lookup. -/
structure GeoResp where
  country : String
  region : String
  city : String
deriving DecidableEq, Repr

/-- An `AssemblyConstituency` reference record. -/
structure ACRecord where
  id : Nat
  name : String
  parliamentaryConstituency : Nat
  district : Nat
deriving DecidableEq, Repr

/-- A `ParliamentaryConstituency` reference record. -/
structure PCRecord where
  id : Nat
deriving DecidableEq, Repr

/-- A `District` reference record, holding its containing state's id. -/
structure DistrictRecord where
  id : Nat
  state : Nat
deriving DecidableEq, Repr

/-- A `State` reference record. -/
structure StateRecord where
  id : Nat
deriving DecidableEq, Repr

/-- The four civic-hierarchy reference stores, in natural order. -/
structure CivicStores where
  assemblyConstituencies : List ACRecord := []
  parliamentaryConstituencies : List PCRecord := []
  districts : List DistrictRecord := []
  states : List StateRecord := []
deriving DecidableEq, Repr

/-- One query issued against a civic-hierarchy store. -/
inductive CivicQuery
  | assemblyConstituency (city : String)
  | parliamentaryConstituency (id : Nat)
  | district (id : Nat)
  | state (id : Nat)
deriving DecidableEq, Repr

/-- The resolved location object (`GeoByIpDto`) returned by `getGeoByIp`. -/
structure GeoLocation where
  assemblyConstituency : Option ACRecord := none
  parliamentaryConstituency : Option PCRecord := none
  district : Option DistrictRecord := none
  state : Option StateRecord := none
deriving DecidableEq, Repr

/-- Case-insensitive substring test, embedding the
`$regex: geo.city, $options: 'i'` filter on constituency names. -/
def icontains (hay pat : String) : Bool :=
  decide (List.IsInfix pat.toLower.toList hay.toLower.toList)

/-- The unconditional `updateOne` that records the raw geo string and the
caller's IP on the user document identified by `firebaseId = userId`. -/
def recordIpGeo (geo : GeoResp) (ip : String) (u : UserDoc) : UserDoc :=
  { u with ipGeo := some ("India, " ++ geo.region ++ ", " ++ geo.city),
           lastIp := some ip }

/-- `UserService.getGeoByIp` given the provider's response `geo`.  Returns
the store after the side effect, the outcome (`Except.error ()` models the
`TypeError` thrown when a matched constituency's district is missing and
`location.district.state` is dereferenced), and the trace of queries issued
against the civic-hierarchy stores. -/
def getGeoByIp (db : DB) (stores : CivicStores) (geo : GeoResp) (ip : String)
    (userId : Option String) :
    DB × Except Unit GeoLocation × List CivicQuery :=
  let db' :=
    if truthy userId then
      { db with
        users := updateFirst db.users (fun u => u.firebaseId == userId)
          (recordIpGeo geo ip) }
    else db
  if geo.country ≠ "IN" then (db', Except.ok {}, [])
  else
    match stores.assemblyConstituencies.find? (fun a => icontains a.name geo.city) with
    | none => (db', Except.ok {}, [CivicQuery.assemblyConstituency geo.city])
    | some a =>
      let pc := stores.parliamentaryConstituencies.find?
        (fun p => p.id == a.parliamentaryConstituency)
      match stores.districts.find? (fun d => d.id == a.district) with
      | none =>
        (db', Except.error (),
          [CivicQuery.assemblyConstituency geo.city,
           CivicQuery.parliamentaryConstituency a.parliamentaryConstituency,
           CivicQuery.district a.district])
      | some dv =>
        let st := stores.states.find? (fun s => s.id == dv.state)
        (db',
          Except.ok
            { assemblyConstituency := some a, parliamentaryConstituency := pc,
              district := some dv, state := st },
          [CivicQuery.assemblyConstituency geo.city,
           CivicQuery.parliamentaryConstituency a.parliamentaryConstituency,
           CivicQuery.district a.district, CivicQuery.state dv.state])

/-- Payload of a socket connection event. -/
structure ConnectDto where
  user : String
  socketid : String
  platform : Platform
deriving DecidableEq, Repr

/-- The atomic `$push` of the socket entry plus `$inc` of the per-platform
counter performed by `connected`. -/
def pushSocketIncr (d : ConnectDto) (now : Nat) (u : UserDoc) : UserDoc :=
  { u with
    activeSockets := u.activeSockets ++ [⟨d.socketid, d.platform, now⟩],
    platformOnline := u.platformOnline.inc d.platform }

/-- `UserService.connected`: guarded skip on a falsy user or socket id;
otherwise `updateOne` pushes the socket entry and increments the counter,
then the user is re-read and a `UserSession` document is created carrying
`user?.location?.state` (absent when the lookup chain hits `undefined`). -/
def connected (db : DB) (d : ConnectDto) (now : Nat) : DB :=
  if d.socketid = "" || d.user = "" then db
  else
    let users' := updateFirst db.users (fun u => u.firebaseId == some d.user)
      (pushSocketIncr d now)
    let found := users'.find? (fun u => u.firebaseId == some d.user)
    { users := users',
      sessions := db.sessions ++
        [{ user := d.user, socketid := d.socketid, platform := d.platform,
           date := now,
           state := found.bind (fun u => u.location.bind (fun l => l.state)) }] }

/-- The filter `❴'activeSockets.socketid': sid❵`: whether a user document
holds an active socket with the given id. -/
def hasSocket (sid : String) (u : UserDoc) : Bool :=
  u.activeSockets.any (fun s => s.socketid == sid)

/-- The `$pull` of every `activeSockets` entry with the given socket id. -/
def pullSocket (sid : String) (u : UserDoc) : UserDoc :=
  { u with activeSockets := u.activeSockets.filter (fun s => !(s.socketid == sid)) }

/-- `UserService.disconnected`: `updateOne` on the first user holding the
socket id, pulling every `activeSockets` entry with that socket id.  The
per-platform counters are not touched. -/
def disconnected (db : DB) (sid : String) : DB :=
  { db with users := updateFirst db.users (hasSocket sid) (pullSocket sid) }

lemma updateFirst_of_all_neg (l : List α) (p : α → Bool) (f : α → α)
    (h : ∀ x ∈ l, p x = false) : updateFirst l p f = l := by
  induction l with
  | nil => rfl
  | cons x xs ih =>
    have hx : p x = false := h x (by simp)
    simp [updateFirst, hx, ih fun y hy => h y (by simp [hy])]

lemma find?_updateFirst (l : List α) (p : α → Bool) (f : α → α) (u : α)
    (hfind : l.find? p = some u) (hpf : p (f u) = true) :
    (updateFirst l p f).find? p = some (f u) := by
  induction l with
  | nil => simp at hfind
  | cons x xs ih =>
    by_cases hp : p x = true
    · rw [List.find?_cons_of_pos _ hp] at hfind
      obtain rfl : x = u := by injection hfind
      simp [updateFirst, hp, List.find?_cons_of_pos _ hpf]
    · rw [List.find?_cons_of_neg _ hp] at hfind
      simp only [updateFirst, if_neg hp]
      rw [List.find?_cons_of_neg _ hp]
      exact ih hfind

lemma updateFirst_twice (l : List α) (p q : α → Bool) (f g : α → α) (u : α)
    (hfind : l.find? p = some u) (hq : ∀ w ∈ l, q w = false) (hqf : q (f u) = true) :
    updateFirst (updateFirst l p f) q g = updateFirst l p (fun w => g (f w)) := by
  induction l with
  | nil => simp at hfind
  | cons x xs ih =>
    by_cases hp : p x = true
    · rw [List.find?_cons_of_pos _ hp] at hfind
      obtain rfl : x = u := by injection hfind
      simp [updateFirst, hp, hqf]
    · rw [List.find?_cons_of_neg _ hp] at hfind
      have hqx : q x = false := hq x (by simp)
      simp only [updateFirst, if_neg hp, hqx, Bool.false_eq_true, if_false,
        List.cons.injEq, true_and]
      exact ih hfind fun w hw => hq w (by simp [hw])

/-- C1: `checkCredentials` returns true exactly when some existing user,
other than the one identified by the candidate's `selfId`/`firebaseId` when
provided, has a matching non-empty phone, a matching non-empty email, or,
when the candidate supplies a voterId, a matching non-empty voterId; in
particular it returns false when phone, email and voterId are empty or
absent on both the candidate and every stored user. -/
theorem checkCredentials_matches_spec (users : List UserDoc) (c : CheckCredentialsDto) :
    (checkCredentials users c = true ↔ specCollision users c) ∧
    ((notSet c.phone = true ∧ notSet c.email = true ∧ notSet c.voterId = true ∧
        ∀ u ∈ users, notSet u.phone = true ∧ notSet u.email = true ∧
          notSet u.voterId = true) →
      checkCredentials users c = false) := by
  have hmain : checkCredentials users c = true ↔ specCollision users c := by
    unfold checkCredentials specCollision
    rw [List.any_eq_true]
    refine exists_congr fun u => and_congr_right fun _ => ?_
    simp only [Bool.and_eq_true, Bool.or_eq_true, credBranch_iff, fbExclusion_iff,
      idExclusion_iff, voterGuard_iff]
    tauto
  refine ⟨hmain, fun h => ?_⟩
  rw [Bool.eq_false_iff]
  intro htrue
  rcases hmain.mp htrue with ⟨u, hu, _, _, hmatch⟩
  obtain ⟨hp, he, hv, _⟩ := h
  rcases hmatch with ⟨v, hv', hne, _⟩ | ⟨v, hv', hne, _⟩ | ⟨⟨v, hv', hne⟩, _⟩
  · rw [hv'] at hp; simp [notSet] at hp; exact hne hp
  · rw [hv'] at he; simp [notSet] at he; exact hne he
  · rw [hv'] at hv; simp [notSet] at hv; exact hne hv

/-- Witness for C1: no credential fields set on either side, so the check
reports no collision. -/
theorem checkCredentials_matches_spec_witness :
    checkCredentials [{ firebaseId := some "u1" }] {} = false :=
  (checkCredentials_matches_spec [{ firebaseId := some "u1" }] {}).2 (by decide)

/-- C2: `create` fails with the duplicate-identity error when the
`firebaseId` already has an account, fails with the duplicate-credential
error when `checkCredentials` matches, and otherwise appends exactly one
record whose `activeSockets` is empty; in both failure cases the store is
left untouched. -/
theorem create_duplicate_guards (db : DB) (fb : FirebaseState) (data : CreateDto) :
    (existsFirebaseId db.users data.firebaseId = true →
      create db fb data = (db, Except.error CreateError.duplicateIdentity)) ∧
    (existsFirebaseId db.users data.firebaseId = false →
      checkCredentials db.users (toCheck data) = true →
      create db fb data = (db, Except.error CreateError.duplicateCredential)) ∧
    (existsFirebaseId db.users data.firebaseId = false →
      checkCredentials db.users (toCheck data) = false →
      (create db fb data).2 = Except.ok (toUserDoc data) ∧
      (toUserDoc data).activeSockets = [] ∧
      (create db fb data).1.users = db.users ++ [toUserDoc data] ∧
      (create db fb data).1.sessions = db.sessions) := by
  refine ⟨fun h1 => ?_, fun h1 h2 => ?_, fun h1 h2 => ?_⟩
  · simp [create, h1]
  · simp [create, h1, h2]
  · exact ⟨by simp [create, h1, h2], rfl, by simp [create, h1, h2], by simp [create, h1, h2]⟩

/-- Witness for C2: creating over an existing `firebaseId` is rejected and
the store is unchanged. -/
theorem create_duplicate_guards_witness :
    create { users := [{ firebaseId := some "u1" }] } {} { firebaseId := some "u1" } =
      ({ users := [{ firebaseId := some "u1" }] },
        Except.error CreateError.duplicateIdentity) :=
  (create_duplicate_guards { users := [{ firebaseId := some "u1" }] } {}
    { firebaseId := some "u1" }).1 (by decide)

/-- C5: once the duplicate checks pass, `create` succeeds and persists the
record for every provider state, in particular when every identity-provider
call fails (`available = false`): provider failures never surface as a
failure of account creation. -/
theorem create_ok_despite_provider_failure (db : DB) (fb : FirebaseState)
    (data : CreateDto)
    (h1 : existsFirebaseId db.users data.firebaseId = false)
    (h2 : checkCredentials db.users (toCheck data) = false) :
    (create db fb data).2 = Except.ok (toUserDoc data) ∧
    (create db fb data).1.users = db.users ++ [toUserDoc data] := by
  constructor <;> simp [create, h1, h2]

/-- Witness for C5: creation against an unavailable provider still returns
the new user. -/
theorem create_ok_despite_provider_failure_witness :
    (create {} { available := false } { firebaseId := some "u1" }).2 =
      Except.ok (toUserDoc { firebaseId := some "u1" }) :=
  (create_ok_despite_provider_failure {} { available := false }
    { firebaseId := some "u1" } (by decide) (by decide)).1

/-- C4: `update` fails with the not-found error exactly when no stored user
matches the query; when one does, the first matching record receives the
(enriched) patch and the call returns that record without error. -/
theorem update_notFound_iff_no_match (db : DB) (fb : FirebaseState)
    (q : UpdateQueryDto) (d : UpdateDto) :
    ((update db fb q d).2 = Except.error UpdateError.notFound ↔
      ∀ u ∈ db.users, matchesQuery q u = false) ∧
    (∀ u, db.users.find? (matchesQuery q) = some u →
      (update db fb q d).2 = Except.ok u ∧
      (update db fb q d).1.users =
        updateFirst db.users (matchesQuery q)
          (applyUpdate (enrichUpdate (getUserP fb q.firebaseId) d))) := by
  constructor
  · cases hf : db.users.find? (matchesQuery q) with
    | none =>
      simp only [update, hf]
      simp only [List.find?_eq_none] at hf
      simpa using fun u hu => Bool.eq_false_iff.mpr (hf u hu)
    | some u =>
      simp only [update, hf]
      constructor
      · intro h; cases h
      · intro h
        have := Bool.eq_false_iff.mp (h u (List.mem_of_find?_eq_some hf))
        exact absurd (List.find?_some hf) this
  · intro u hu
    simp [update, hu]

/-- Witness for C4: updating an empty store raises the not-found error. -/
theorem update_notFound_iff_no_match_witness :
    (update {} {} { firebaseId := some "u1" } {}).2 =
      Except.error UpdateError.notFound :=
  (update_notFound_iff_no_match {} {} { firebaseId := some "u1" } {}).1.mpr
    (by decide)

lemma matchesQuery_applyUpdate (q : UpdateQueryDto) (d : UpdateDto) (u : UserDoc) :
    matchesQuery q (applyUpdate d u) = matchesQuery q u := by
  simp [matchesQuery, applyUpdate]

/-- Counterexample for C3: the provider account of `u1` has verified email
`a@x`, the patch changes the email to the non-matching `b@y`, and `update`
still stores `emailVerified = true` — the code never compares the patched
email against the provider's address. -/
theorem update_email_nonmatching_counterexample :
    ((getUserP { accounts := [("u1", { emailVerified := true, email := some "a@x" })] }
        (some "u1")).bind (fun pu => pu.email) ≠ some "b@y") ∧
    ((update { users := [{ firebaseId := some "u1" }] }
        { accounts := [("u1", { emailVerified := true, email := some "a@x" })] }
        { firebaseId := some "u1" } { email := some "b@y" }).1.users.map
        (fun u => u.emailVerified) = [some true]) := by
  decide

/-- C3 (amended): for a patch changing only `email` to a non-empty value,
`update` stores `emailVerified = true` exactly when the provider call for
the query's `firebaseId` succeeds and reports `emailVerified`, regardless
of whether the new email matches the provider's address; otherwise the
stored flag is left unchanged. -/
theorem update_email_verified_flag (db : DB) (fb : FirebaseState)
    (q : UpdateQueryDto) (e : String) (u : UserDoc)
    (he : e ≠ "")
    (hfind : db.users.find? (matchesQuery q) = some u) :
    (update db fb q { email := some e }).1.users.find? (matchesQuery q) =
      some { u with
        email := some e,
        emailVerified :=
          if (getUserP fb q.firebaseId).elim false (fun pu => pu.emailVerified)
          then some true else u.emailVerified } := by
  have hpu : matchesQuery q u = true := List.find?_some hfind
  have happly : ∀ d : UpdateDto,
      (update db fb q d).1.users =
        updateFirst db.users (matchesQuery q)
          (applyUpdate (enrichUpdate (getUserP fb q.firebaseId) d)) := by
    intro d; simp [update, hfind]
  rw [happly]
  set d' := enrichUpdate (getUserP fb q.firebaseId) { email := some e } with hd'
  have hres := find?_updateFirst db.users (matchesQuery q) (applyUpdate d') u hfind
    (by rw [matchesQuery_applyUpdate]; exact hpu)
  rw [hres]
  congr 1
  cases hp : getUserP fb q.firebaseId with
  | none =>
    simp only [hd', enrichUpdate, hp, Option.elim]
    simp [applyUpdate, setField]
  | some pu =>
    cases hev : pu.emailVerified with
    | false =>
      simp only [hd', enrichUpdate, hp, Option.elim, hev]
      simp [truthy, applyUpdate, setField, he]
    | true =>
      simp only [hd', enrichUpdate, hp, Option.elim, hev]
      simp [truthy, applyUpdate, setField, he]

/-- Witness for C3 (amended): a verified provider account makes the patched
email come back with `emailVerified = true`. -/
theorem update_email_verified_flag_witness :
    (update { users := [{ firebaseId := some "u1" }] }
        { accounts := [("u1", { emailVerified := true })] }
        { firebaseId := some "u1" } { email := some "e@x" }).1.users.find?
        (matchesQuery { firebaseId := some "u1" }) =
      some { firebaseId := some "u1", email := some "e@x",
             emailVerified := some true } := by
  rw [update_email_verified_flag { users := [{ firebaseId := some "u1" }] }
    { accounts := [("u1", { emailVerified := true })] }
    { firebaseId := some "u1" } "e@x" { firebaseId := some "u1" }
    (by decide) (by decide)]
  decide

/-- C6: when the geo provider resolves a country other than the serviced
one, `getGeoByIp` returns the empty location object without error and
issues no query against any civic-hierarchy store. -/
theorem getGeoByIp_foreign_country_empty (db : DB) (stores : CivicStores)
    (geo : GeoResp) (ip : String) (userId : Option String)
    (h : geo.country ≠ "IN") :
    (getGeoByIp db stores geo ip userId).2 = (Except.ok ({} : GeoLocation), []) := by
  simp only [getGeoByIp]
  rw [if_pos h]

/-- Witness for C6: a United States response yields the empty location and
an empty civic-query trace. -/
theorem getGeoByIp_foreign_country_empty_witness :
    (getGeoByIp {} {} { country := "US", region := "CA", city := "X" }
        "1.2.3.4" none).2 = (Except.ok ({} : GeoLocation), []) :=
  getGeoByIp_foreign_country_empty {} {}
    { country := "US", region := "CA", city := "X" } "1.2.3.4" none (by decide)

lemma getGeoByIp_fst (db : DB) (stores : CivicStores) (geo : GeoResp)
    (ip : String) (uid : String) (h : uid ≠ "") :
    (getGeoByIp db stores geo ip (some uid)).1 =
      { db with
        users := updateFirst db.users (fun u => u.firebaseId == some uid)
          (recordIpGeo geo ip) } := by
  have ht : truthy (some uid) = true := by simp [truthy, h]
  simp only [getGeoByIp, ht, if_true]
  split
  · rfl
  · split
    · rfl
    · split <;> rfl

/-- C7: with a (non-empty) `userId`, `getGeoByIp` writes the raw geo string
and the IP onto the user record identified by that id for every provider
response — including non-serviced countries and cities matching no
constituency — and the store side effect depends only on the response's
region and city, never on the resolved location. -/
theorem getGeoByIp_records_geo_unconditionally (db : DB) (stores : CivicStores)
    (geo : GeoResp) (ip : String) (uid : String) (h : uid ≠ "") :
    ((getGeoByIp db stores geo ip (some uid)).1 =
      { db with
        users := updateFirst db.users (fun u => u.firebaseId == some uid)
          (recordIpGeo geo ip) }) ∧
    (∀ geo2 : GeoResp, geo2.region = geo.region → geo2.city = geo.city →
      (getGeoByIp db stores geo2 ip (some uid)).1 =
        (getGeoByIp db stores geo ip (some uid)).1) := by
  refine ⟨getGeoByIp_fst db stores geo ip uid h, fun geo2 hr hc => ?_⟩
  have hrec : recordIpGeo geo2 ip = recordIpGeo geo ip := by
    funext u; simp [recordIpGeo, hr, hc]
  rw [getGeoByIp_fst db stores geo2 ip uid h, getGeoByIp_fst db stores geo ip uid h,
    hrec]

/-- Witness for C7: a foreign-country response still rewrites the stored
user's `ipGeo` and `lastIp`. -/
theorem getGeoByIp_records_geo_unconditionally_witness :
    (getGeoByIp { users := [{ firebaseId := some "u1" }] } {}
        { country := "US", region := "CA", city := "X" } "1.2.3.4"
        (some "u1")).1 =
      { users := [{ firebaseId := some "u1", ipGeo := some "India, CA, X", lastIp := some "1.2.3.4" }] } := by
  rw [(getGeoByIp_records_geo_unconditionally { users := [{ firebaseId := some "u1" }] }
    {} { country := "US", region := "CA", city := "X" } "1.2.3.4" "u1" (by decide)).1]
  decide

/-- C10: whenever `getGeoByIp` records the raw geo string for a stored
user, that string is the fixed serviced-country prefix followed by the
provider's region and city, whatever country the provider resolved. -/
theorem getGeoByIp_ipGeo_claims_india (db : DB) (stores : CivicStores)
    (geo : GeoResp) (ip : String) (uid : String) (u : UserDoc) (h : uid ≠ "")
    (hfind : db.users.find? (fun w => w.firebaseId == some uid) = some u) :
    (getGeoByIp db stores geo ip (some uid)).1.users.find?
        (fun w => w.firebaseId == some uid) =
      some { u with
        ipGeo := some ("India, " ++ (geo.region ++ ", " ++ geo.city)),
        lastIp := some ip } := by
  rw [getGeoByIp_fst db stores geo ip uid h]
  have hpres : ((fun w : UserDoc => w.firebaseId == some uid) (recordIpGeo geo ip u)) = true := by
    simpa [recordIpGeo] using List.find?_some hfind
  show List.find? (fun w => w.firebaseId == some uid)
      (updateFirst db.users (fun w => w.firebaseId == some uid) (recordIpGeo geo ip)) = _
  rw [find?_updateFirst db.users (fun w => w.firebaseId == some uid)
    (recordIpGeo geo ip) u hfind hpres]
  simp [recordIpGeo, String.append_assoc]

/-- Witness for C10: a foreign-country lookup stores a geo string that
still claims the serviced country. -/
theorem getGeoByIp_ipGeo_claims_india_witness :
    (getGeoByIp { users := [{ firebaseId := some "u1" }] } {}
        { country := "FR", region := "IDF", city := "Paris" } "9.9.9.9"
        (some "u1")).1.users.find? (fun w => w.firebaseId == some "u1") =
      some { firebaseId := some "u1", ipGeo := some ("India, " ++ ("IDF" ++ ", " ++ "Paris")), lastIp := some "9.9.9.9" } := by
  rw [getGeoByIp_ipGeo_claims_india { users := [{ firebaseId := some "u1" }] } {}
    { country := "FR", region := "IDF", city := "Paris" } "9.9.9.9" "u1"
    { firebaseId := some "u1" } (by decide) (by decide)]

/-- C8: for a fresh socket id, `connected` followed immediately by
`disconnected` with the same socket id leaves the user's `activeSockets`
without an entry for that socket id, while the per-platform online counter
keeps the increment performed by `connected`. -/
theorem connect_disconnect_sockets_counter (db : DB) (d : ConnectDto) (now : Nat)
    (u : UserDoc) (hu : d.user ≠ "") (hs : d.socketid ≠ "")
    (hfind : db.users.find? (fun w => w.firebaseId == some d.user) = some u)
    (hfresh : ∀ w ∈ db.users, ∀ s ∈ w.activeSockets, s.socketid ≠ d.socketid) :
    ∃ u',
      (disconnected (connected db d now) d.socketid).users.find?
          (fun w => w.firebaseId == some d.user) = some u' ∧
      (∀ s ∈ u'.activeSockets, s.socketid ≠ d.socketid) ∧
      u'.platformOnline = u.platformOnline.inc d.platform := by
  have hcon : (connected db d now).users =
      updateFirst db.users (fun w => w.firebaseId == some d.user)
        (pushSocketIncr d now) := by
    simp [connected, hu, hs]
  have hdis : (disconnected (connected db d now) d.socketid).users =
      updateFirst
        (updateFirst db.users (fun w => w.firebaseId == some d.user)
          (pushSocketIncr d now))
        (hasSocket d.socketid) (pullSocket d.socketid) := by
    rw [disconnected, hcon]
  have hqall : ∀ w ∈ db.users, hasSocket d.socketid w = false := by
    intro w hw
    apply Bool.eq_false_iff.mpr
    intro hany
    rcases List.any_eq_true.mp hany with ⟨s, hsin, hseq⟩
    exact hfresh w hw s hsin (by simpa using hseq)
  have hqfu : hasSocket d.socketid (pushSocketIncr d now u) = true := by
    apply List.any_eq_true.mpr
    exact ⟨⟨d.socketid, d.platform, now⟩, by simp [pushSocketIncr], by simp⟩
  have hcomb := updateFirst_twice db.users
    (fun w => w.firebaseId == some d.user) (hasSocket d.socketid)
    (pushSocketIncr d now) (pullSocket d.socketid) u hfind hqall hqfu
  rw [hdis, hcomb]
  have hpres : ((fun w : UserDoc => w.firebaseId == some d.user)
      (pullSocket d.socketid (pushSocketIncr d now u))) = true := by
    simpa [pullSocket, pushSocketIncr] using List.find?_some hfind
  rw [find?_updateFirst db.users (fun w => w.firebaseId == some d.user)
    (fun w => pullSocket d.socketid (pushSocketIncr d now w)) u hfind hpres]
  refine ⟨_, rfl, fun s hsin => ?_, rfl⟩
  have hmem : s ∈ (pushSocketIncr d now u).activeSockets.filter
      (fun t => !(t.socketid == d.socketid)) := by
    simpa [pullSocket] using hsin
  have := (List.mem_filter.mp hmem).2
  simpa using this

/-- Witness for C8: one user, one connect/disconnect round trip; the socket
entry is gone and the `app` counter was incremented. -/
theorem connect_disconnect_sockets_counter_witness :
    ∃ u',
      (disconnected
          (connected { users := [{ firebaseId := some "u1" }] }
            { user := "u1", socketid := "s1", platform := Platform.app } 7)
          "s1").users.find? (fun w => w.firebaseId == some "u1") = some u' ∧
      (∀ s ∈ u'.activeSockets, s.socketid ≠ "s1") ∧
      u'.platformOnline = PlatformOnline.inc {} Platform.app :=
  connect_disconnect_sockets_counter { users := [{ firebaseId := some "u1" }] }
    { user := "u1", socketid := "s1", platform := Platform.app } 7
    { firebaseId := some "u1" } (by decide) (by decide) (by decide) (by decide)

/-- C9: `connected` with non-empty user and socket ids writes a
`UserSession` record even when no stored user matches the given id; the
session's `state` is absent and the user collection is untouched. -/
theorem connected_missing_user_creates_session (db : DB) (d : ConnectDto) (now : Nat)
    (hu : d.user ≠ "") (hs : d.socketid ≠ "")
    (habs : ∀ w ∈ db.users, w.firebaseId ≠ some d.user) :
    (connected db d now).sessions =
      db.sessions ++ [{ user := d.user, socketid := d.socketid, platform := d.platform, date := now, state := none }] ∧
    (connected db d now).users = db.users := by
  have hall : ∀ w ∈ db.users, (w.firebaseId == some d.user) = false := by
    intro w hw
    exact beq_eq_false_iff_ne.mpr (habs w hw)
  have hup : updateFirst db.users (fun w => w.firebaseId == some d.user)
      (pushSocketIncr d now) = db.users :=
    updateFirst_of_all_neg _ _ _ hall
  have hfind : db.users.find? (fun w => w.firebaseId == some d.user) = none :=
    List.find?_eq_none.mpr fun w hw => by simp [hall w hw]
  constructor
  · simp [connected, hu, hs, hup, hfind]
  · simp [connected, hu, hs, hup]

/-- Witness for C9: connecting an unknown user against an empty store still
logs a session with no `state`. -/
theorem connected_missing_user_creates_session_witness :
    (connected {} { user := "u9", socketid := "s9", platform := Platform.web } 3).sessions =
      [{ user := "u9", socketid := "s9", platform := Platform.web, date := 3, state := none }] :=
  ((connected_missing_user_creates_session {}
    { user := "u9", socketid := "s9", platform := Platform.web } 3
    (by decide) (by decide) (by decide)).1).trans (by decide)

end Samples
